import Mathlib

/-!
Shallow embedding of the NCL circuit-simulation core of `app.py`
(repository: Advanced-NULL-Convention-Logic).

The embedded fragment covers: the dual-rail signal model (`is_null`,
`is_data`), the generic threshold evaluator `thmn` and its fixed
instantiations `th22`, `th12`, `th23`, the `Gate`/`Circuit` data model,
the gate evaluator `evaluate_gate` (app.py lines 158-178), the
"Run Step-by-Step Simulation" wavefront loop (lines 180-203), the final
output extraction (line 203), and the "Add Gate" handler (lines 137-145).

Modelling conventions:
* Python dicts become insertion-ordered association lists
  `List (String × α)`; `dictLookup`/`dictGet`/`dictSet` mirror
  `d[k]` / `d.get(k, default)` / `d[k] = v` (assignment keeps the
  position of an existing key and appends a fresh key, as Python
  3.7+ dicts do).
* Python floats that only ever hold small dyadic values (the simulated
  time `t`, which takes the exactly representable values 0.0, 0.5, …,
  and gate delays, which are never read by the engine) become `ℚ`.
  `round(t, 3)` is the identity on those values, so snapshot times are
  modelled as `t` itself.
* A Python exception escaping the simulation (the only possible one is
  the `TypeError` raised by `th22(*sigs[:2])` / `th12(*sigs[:2])` /
  `th23(*sigs[:3])` when fewer arguments than the fixed arity are
  supplied) is modelled by `Option`: `none` means the run raised.
* `int(...)` applied to the kind-string remainder is modelled by
  `pyInt`, covering ASCII decimal literals with optional surrounding
  whitespace, an optional sign, and single underscores between digits,
  exactly as Python's `int` accepts them (non-ASCII digit alphabets are
  out of scope; no kind string built by the app contains them).
* The `while changed and t < 20` loop advances `t` by `0.5` per pass;
  after `k` passes `t` is exactly `k / 2` (also in binary floating
  point, since 0.5 and all its partial sums up to 20 are exact), so the
  loop is written with the pass counter `k` and the literal guard
  `(k : ℚ) / 2 < 20`.  The structural fuel argument starts at `40`;
  when the fuel hits `0` we have `k = 40`, where the guard
  `(k : ℚ) / 2 < 20` is false anyway, so the fuel-exhaustion branch
  returns exactly what the guard-false branch would.
-/

namespace NCL

/-- Dual-rail signal `(rail1, rail0)`; Python tuple of ints. -/
abbrev Signal := Int × Int

/-- app.py line 27: `is_null(sig)`. -/
def is_null (sig : Signal) : Bool :=
  decide (sig = (0, 0))

/-- app.py line 30: `is_data(sig)` is `sig != (0,0)`. -/
def is_data (sig : Signal) : Bool :=
  decide (sig ≠ (0, 0))

/-- app.py lines 44-46: generic threshold gate `thmn`; the count is the
Python generator sum `sum(1 for x in inputs if is_data(x))`. -/
def thmn (inputs : List Signal) (m : Int) : Signal :=
  let count : Nat := inputs.foldl (fun acc x => if is_data x then acc + 1 else acc) 0
  if m ≤ (count : Int) then (1, 0) else (0, 0)

/-- app.py line 49. -/
def th22 (a b : Signal) : Signal := thmn [a, b] 2

/-- app.py line 50. -/
def th12 (a b : Signal) : Signal := thmn [a, b] 1

/-- app.py line 51. -/
def th23 (a b c : Signal) : Signal := thmn [a, b, c] 2

/-- app.py lines 56-61: a gate record. -/
structure Gate where
  id : String
  kind : String
  inputs : List String
  delay : ℚ
deriving DecidableEq

/-- app.py lines 63-67: a circuit; every Python dict is modelled as an
insertion-ordered association list. -/
structure Circuit where
  inputs : List (String × Signal)
  gates : List (String × Gate)
  outputs : List (String × String)
deriving DecidableEq

/-- Python `d.get(key)` / `key in d`: first binding of `key`, if any. -/
def dictLookup {α : Type} : List (String × α) → String → Option α
  | [], _ => none
  | (k, v) :: rest, key => if k = key then some v else dictLookup rest key

/-- Python `d.get(key, default)`. -/
def dictGet {α : Type} (d : List (String × α)) (key : String) (default : α) : α :=
  match dictLookup d key with
  | some v => v
  | none => default

/-- Python `d[key] = v`: overwrite in place if present, append if not. -/
def dictSet {α : Type} : List (String × α) → String → α → List (String × α)
  | [], key, v => [(key, v)]
  | (k, w) :: rest, key, v =>
      if k = key then (k, v) :: rest else (k, w) :: dictSet rest key v

/-- Python `s.startswith("THm")` on the kind string's characters. -/
def startsWithTHm : List Char → Bool
  | 'T' :: 'H' :: 'm' :: _ => true
  | _ => false

/-- Python `s.replace("THm", "")`: delete every (left-to-right,
non-overlapping) occurrence of the substring `THm`. -/
def replaceTHm : List Char → List Char
  | 'T' :: 'H' :: 'm' :: rest => replaceTHm rest
  | c :: rest => c :: replaceTHm rest
  | [] => []

/-- ASCII decimal digit test. -/
def isAsciiDigit (c : Char) : Bool :=
  decide ('0' ≤ c) && decide (c ≤ '9')

/-- Whitespace stripped by Python's `int`. -/
def isPySpace (c : Char) : Bool :=
  c = ' ' || c = '\t' || c = '\n' || c = '\r'

mutual

/-- Validator for Python integer-literal digit runs, expecting a digit
next (start of the run, or right after an underscore). -/
def pyDigitsNeedDigit : List Char → Bool
  | [] => false
  | c :: rest => isAsciiDigit c && pyDigitsAfterDigit rest

/-- Validator for Python integer-literal digit runs, just after a digit
(the run may end here, continue with a digit, or with one underscore). -/
def pyDigitsAfterDigit : List Char → Bool
  | [] => true
  | c :: rest => if c = '_' then pyDigitsNeedDigit rest
                 else isAsciiDigit c && pyDigitsAfterDigit rest

end

/-- Numeric value of a digit run, skipping underscore separators. -/
def digitsVal (l : List Char) : Nat :=
  l.foldl (fun acc c => if isAsciiDigit c then 10 * acc + (c.toNat - 48) else acc) 0

/-- Python `int(s)` on the strings that can arise from a kind-string
remainder: strip whitespace, optional single sign, then a digit run
with optional single underscores between digits. `none` models the
`ValueError` caught by the bare `except` in `evaluate_gate`. -/
def pyInt (s : String) : Option Int :=
  let l := ((s.toList.dropWhile isPySpace).reverse.dropWhile isPySpace).reverse
  match l with
  | '+' :: rest => if pyDigitsNeedDigit rest then some (digitsVal rest : Int) else none
  | '-' :: rest => if pyDigitsNeedDigit rest then some (-(digitsVal rest : Int)) else none
  | rest => if pyDigitsNeedDigit rest then some (digitsVal rest : Int) else none

/-- app.py lines 160-166: the input-gathering loop of `evaluate_gate`:
a reference present in the state contributes its value, an absent one
contributes NULL `(0,0)`. -/
def gather : List String → List (String × Signal) → List Signal
  | [], _ => []
  | src :: rest, state => dictGet state src (0, 0) :: gather rest state

/-- app.py lines 158-178: `evaluate_gate`.  `none` models the uncaught
`TypeError` of `th22(*sigs[:2])` (resp. `th12`, `th23`) when fewer
than 2 (resp. 3) arguments are supplied; every other branch is total. -/
def evaluate_gate (g : Gate) (state_signals : List (String × Signal)) : Option Signal :=
  let sigs := gather g.inputs state_signals
  if startsWithTHm g.kind.toList then
    let m : Int :=
      match pyInt (String.mk (replaceTHm g.kind.toList)) with
      | some v => v
      | none => max 1 (sigs.length : Int)
    some (thmn sigs m)
  else if g.kind = "TH22" then
    match sigs.take 2 with
    | [a, b] => some (th22 a b)
    | _ => none
  else if g.kind = "TH12" then
    match sigs.take 2 with
    | [a, b] => some (th12 a b)
    | _ => none
  else if g.kind = "TH23" then
    match sigs.take 3 with
    | [a, b, c] => some (th23 a b c)
    | _ => none
  else
    some (thmn sigs 1)

/-- app.py lines 197-198: `out_sig != state.get(gid, (None, None))`.
The sentinel `(None, None)` equals no int pair, so an absent previous
value always counts as different. -/
def differs (state : List (String × Signal)) (gid : String) (out_sig : Signal) : Bool :=
  match dictLookup state gid with
  | some prev => decide (out_sig ≠ prev)
  | none => true

/-- app.py lines 192-200: one pass of the simulation loop body: gates in
insertion order, evaluated against the state updated in place
(Gauss-Seidel); returns the updated state and the `changed` flag, or
`none` if some gate evaluation raised. -/
def passGates :
    List (String × Gate) → List (String × Signal) → Bool →
    Option (List (String × Signal) × Bool)
  | [], state, changed => some (state, changed)
  | (gid, gate) :: rest, state, changed =>
      match evaluate_gate gate state with
      | none => none
      | some out_sig =>
          if differs state gid out_sig then
            passGates rest (dictSet state gid out_sig) true
          else
            passGates rest state changed

/-- A timeline entry, app.py line 189:
`{"time": round(t, 3), "signals": dict(state)}`. -/
structure Snapshot where
  time : ℚ
  signals : List (String × Signal)
deriving DecidableEq

/-- The simulated time after `k` passes: `t` starts at `0.0` and gains
`0.5` per pass, so after `k` passes it is exactly `k / 2` (these sums
are also exact in binary floating point, and `round(t, 3)` is the
identity on them). -/
def tOfPass (k : Nat) : ℚ :=
  (k : ℚ) / 2

/-- app.py lines 185-201: the `while changed and t < 20:` loop.  `k` is
the number of passes already executed, so `t = tOfPass k` and the
source's guard `t < 20` holds exactly when `k < 40` (the lemma
`tOfPass_lt_twenty_iff` below proves this equivalence); the guard is
written on `k` so that the definition computes by kernel reduction.
The structural `fuel` starts at `40`; it reaches `0` only with
`k = 40`, where the guard is false, so the fuel-exhaustion branch
coincides with the guard-false branch and the function is
extensionally the source loop.  Returns the recorded timeline, the
final state and the final `changed` flag, or `none` if a pass raised. -/
def simLoop (gates : List (String × Gate)) :
    Nat → List (String × Signal) → Bool → Nat →
    Option (List Snapshot × List (String × Signal) × Bool)
  | 0, state, changed, _ => some ([], state, changed)
  | fuel + 1, state, changed, k =>
      if changed = true ∧ k < 40 then
        match passGates gates state false with
        | none => none
        | some (state', changed') =>
            match simLoop gates fuel state' changed' (k + 1) with
            | none => none
            | some (rest, final, ch) => some (⟨tOfPass k, state⟩ :: rest, final, ch)
      else
        some ([], state, changed)

/-- Faithfulness of the loop guard: the source's `t < 20`, with
`t = tOfPass k` the simulated time after `k` passes, is equivalent to
the counter guard `k < 40` used in `simLoop`. -/
theorem tOfPass_lt_twenty_iff (k : Nat) : tOfPass k < 20 ↔ k < 40 := by
  unfold tOfPass
  rw [div_lt_iff₀ (by norm_num : (0 : ℚ) < 2)]
  constructor
  · intro h
    by_contra hk
    push_neg at hk
    have : (40 : ℚ) ≤ (k : ℚ) := by exact_mod_cast hk
    linarith
  · intro h
    have : (k : ℚ) < 40 := by exact_mod_cast h
    linarith

/-- app.py lines 181-201: one run of the "Run Step-by-Step Simulation"
handler up to (but not including) output extraction: the state is a
copy of `circ.inputs`, `t = 0`, `changed = True`. -/
def runSim (circ : Circuit) :
    Option (List Snapshot × List (String × Signal) × Bool) :=
  simLoop circ.gates 40 circ.inputs true 0

/-- app.py line 203, one output: `state.get(src, state.get(src, (0,0)))`
(the redundant nesting is kept verbatim). -/
def finalValue (state : List (String × Signal)) (src : String) : Signal :=
  dictGet state src (dictGet state src (0, 0))

/-- app.py line 203: the final-output dict comprehension. -/
def final_outputs (outputs : List (String × String))
    (state : List (String × Signal)) : List (String × Signal) :=
  outputs.map (fun p => (p.1, finalValue state p.2))

/-- The whole simulation run: timeline plus final output mapping;
`none` models a Python exception escaping the handler. -/
def runSimulation (circ : Circuit) :
    Option (List Snapshot × List (String × Signal)) :=
  match runSim circ with
  | none => none
  | some (history, state, _) => some (history, final_outputs circ.outputs state)

/-- app.py lines 137-145: the "Add Gate" button handler.  It stores the
gate unconditionally:
`st.session_state.circuit.gates[gid] = Gate(id=gid, kind=kindname, inputs=input_list, delay=gdelay)`.
No validation of the kind string or of the input-reference arity is
performed and no exception is raised. -/
def addGate (circ : Circuit) (gid : String) (kindname : String)
    (input_list : List String) (gdelay : ℚ) : Circuit :=
  { circ with gates := dictSet circ.gates gid ⟨gid, kindname, input_list, gdelay⟩ }

/-- Sufficient arity condition under which `evaluate_gate` cannot hit
the `TypeError` branch: fixed kinds `TH22`/`TH12` need at least 2 input
references and `TH23` at least 3; all other kinds are total. -/
def aritySafe (g : Gate) : Bool :=
  if g.kind = "TH22" || g.kind = "TH12" then decide (2 ≤ g.inputs.length)
  else if g.kind = "TH23" then decide (3 ≤ g.inputs.length)
  else true

/-- app.py lines 482-488: the "Load Example" circuit: inputs
`A = (1,0)`, `B = (0,1)`, gates `G1 = TH12([A,B])` (delay 1.0) and
`G2 = TH22([A,B])` (delay 1.2), output `OUT = G2`. -/
def exampleCircuit : Circuit :=
  { inputs := [("A", (1, 0)), ("B", (0, 1))]
  , gates := [("G1", ⟨"G1", "TH12", ["A", "B"], 1⟩),
              ("G2", ⟨"G2", "TH22", ["A", "B"], 6 / 5⟩)]
  , outputs := [("OUT", "G2")] }

/-- The timeline the example circuit's run produces: the initial
snapshot at `t = 0` and the snapshot at `t = 0.5` after the first
(and only changing) pass. -/
def exTimeline : List Snapshot :=
  [⟨tOfPass 0, [("A", (1, 0)), ("B", (0, 1))]⟩,
   ⟨tOfPass 1, [("A", (1, 0)), ("B", (0, 1)), ("G1", (1, 0)), ("G2", (1, 0))]⟩]

/-- The final simulation state of the example circuit's run. -/
def exFinalState : List (String × Signal) :=
  [("A", (1, 0)), ("B", (0, 1)), ("G1", (1, 0)), ("G2", (1, 0))]

/-- A circuit on which the simulation raises: a single `TH22` gate with
an empty input-reference list makes `th22(*sigs[:2])` a `TypeError`. -/
def badCircuit : Circuit :=
  { inputs := []
  , gates := [("G1", ⟨"G1", "TH22", [], 1⟩)]
  , outputs := [] }

/-! Helper lemmas about the embedded operations. -/

/-- The Python counting sum inside `thmn`, started at `n`, equals `n`
plus the number of DATA elements. -/
theorem count_foldl (l : List Signal) (n : Nat) :
    l.foldl (fun acc x => if is_data x then acc + 1 else acc) n
      = n + l.countP (fun x => is_data x) := by
  induction l generalizing n with
  | nil => simp
  | cons x xs ih =>
      simp only [List.foldl_cons, List.countP_cons, ih]
      split
      · omega
      · omega

/-- `thmn` in terms of `List.countP`. -/
theorem thmn_eq_countP (inputs : List Signal) (m : Int) :
    thmn inputs m
      = if m ≤ ((inputs.countP (fun s => is_data s) : Nat) : Int) then ((1, 0) : Signal)
        else (0, 0) := by
  unfold thmn
  rw [count_foldl]
  simp

/-- Gathering preserves the number of references. -/
theorem gather_length (refs : List String) (state : List (String × Signal)) :
    (gather refs state).length = refs.length := by
  induction refs with
  | nil => rfl
  | cons r rest ih => simp [gather, ih]

/-- `d.get(key, default)` is the default when the key is absent. -/
theorem dictGet_eq_of_lookup_none {α : Type} {d : List (String × α)} {key : String}
    (h : dictLookup d key = none) (default : α) : dictGet d key default = default := by
  unfold dictGet
  rw [h]

/-- An unresolved reference contributes NULL at its own position of the
gathered input list. -/
theorem gather_append_unresolved (state : List (String × Signal)) (src : String)
    (refs1 refs2 : List String) (h : dictLookup state src = none) :
    gather (refs1 ++ src :: refs2) state
      = gather refs1 state ++ ((0, 0) : Signal) :: gather refs2 state := by
  induction refs1 with
  | nil => simp [gather, dictGet_eq_of_lookup_none h]
  | cons r rest ih => simp [gather, ih]

/-- Looking up a key just stored by `dictSet` yields the stored value. -/
theorem dictLookup_dictSet_self {α : Type} (d : List (String × α)) (key : String) (v : α) :
    dictLookup (dictSet d key v) key = some v := by
  induction d with
  | nil => simp [dictSet, dictLookup]
  | cons p rest ih =>
      obtain ⟨k, w⟩ := p
      by_cases h : k = key
      · simp [dictSet, dictLookup, h]
      · simp [dictSet, dictLookup, h, ih]

/-- `take 2` of a list with at least two elements is a literal pair. -/
theorem take_two_eq (l : List Signal) (h : 2 ≤ l.length) :
    ∃ a b, l.take 2 = [a, b] := by
  cases l with
  | nil => simp at h
  | cons a t =>
      cases t with
      | nil => simp at h
      | cons b t2 => exact ⟨a, b, rfl⟩

/-- `take 3` of a list with at least three elements is a literal triple. -/
theorem take_three_eq (l : List Signal) (h : 3 ≤ l.length) :
    ∃ a b c, l.take 3 = [a, b, c] := by
  cases l with
  | nil => simp at h
  | cons a t =>
      cases t with
      | nil => simp at h
      | cons b t2 =>
          cases t2 with
          | nil => simp at h
          | cons c t3 => exact ⟨a, b, c, rfl⟩

/-- Gathering commutes with truncation of the reference list. -/
theorem gather_take (n : Nat) (refs : List String) (state : List (String × Signal)) :
    gather (refs.take n) state = (gather refs state).take n := by
  induction refs generalizing n with
  | nil => simp [gather]
  | cons r rest ih =>
      cases n with
      | zero => simp [gather]
      | succ n => simp [gather, ih]

/-- Evaluation of `startsWithTHm` on the characters of `TH22`. -/
theorem startsWithTHm_TH22 : startsWithTHm ['T', 'H', '2', '2'] = false := rfl

/-- Evaluation of `startsWithTHm` on the characters of `TH12`. -/
theorem startsWithTHm_TH12 : startsWithTHm ['T', 'H', '1', '2'] = false := rfl

/-- Evaluation of `startsWithTHm` on the characters of `TH23`. -/
theorem startsWithTHm_TH23 : startsWithTHm ['T', 'H', '2', '3'] = false := rfl

/-- An arity-safe gate never hits the `TypeError` branch. -/
theorem evaluate_gate_isSome (g : Gate) (state : List (String × Signal))
    (h : aritySafe g = true) : (evaluate_gate g state).isSome = true := by
  unfold evaluate_gate
  by_cases hthm : startsWithTHm g.kind.toList = true
  · have hthm' : startsWithTHm g.kind.data = true := hthm
    simp [hthm']
  · have hthm' : ¬ startsWithTHm g.kind.data = true := hthm
    unfold aritySafe at h
    by_cases h22 : g.kind = "TH22"
    · have hlen : 2 ≤ (gather g.inputs state).length := by
        rw [gather_length]
        simpa [h22] using h
      obtain ⟨a, b, htake⟩ := take_two_eq (gather g.inputs state) hlen
      simp [hthm', h22, htake, startsWithTHm_TH22]
    · by_cases h12 : g.kind = "TH12"
      · have hlen : 2 ≤ (gather g.inputs state).length := by
          rw [gather_length]
          simpa [h22, h12] using h
        obtain ⟨a, b, htake⟩ := take_two_eq (gather g.inputs state) hlen
        simp [hthm', h22, h12, htake, startsWithTHm_TH12]
      · by_cases h23 : g.kind = "TH23"
        · have hlen : 3 ≤ (gather g.inputs state).length := by
            rw [gather_length]
            simpa [h22, h12, h23] using h
          obtain ⟨a, b, c, htake⟩ := take_three_eq (gather g.inputs state) hlen
          simp [hthm', h22, h12, h23, htake, startsWithTHm_TH23]
        · simp [hthm', h22, h12, h23]

/-- A pass over arity-safe gates never raises. -/
theorem passGates_isSome (gates : List (String × Gate))
    (hsafe : ∀ p ∈ gates, aritySafe p.2 = true) :
    ∀ state changed, (passGates gates state changed).isSome = true := by
  induction gates with
  | nil => intro state changed; rfl
  | cons p rest ih =>
      intro state changed
      obtain ⟨gid, gate⟩ := p
      have hg : aritySafe gate = true := hsafe (gid, gate) (by simp)
      have hrest : ∀ q ∈ rest, aritySafe q.2 = true :=
        fun q hq => hsafe q (List.mem_cons_of_mem _ hq)
      have hev := evaluate_gate_isSome gate state hg
      unfold passGates
      cases hcase : evaluate_gate gate state with
      | none => rw [hcase] at hev; simp at hev
      | some out =>
          by_cases hd : differs state gid out = true
          · simp [hd, ih hrest]
          · simp [hd, ih hrest]

/-- The simulation loop over arity-safe gates never raises. -/
theorem simLoop_isSome (gates : List (String × Gate))
    (hsafe : ∀ p ∈ gates, aritySafe p.2 = true) :
    ∀ fuel state changed k, (simLoop gates fuel state changed k).isSome = true := by
  intro fuel
  induction fuel with
  | zero => intro state changed k; rfl
  | succ fuel ih =>
      intro state changed k
      unfold simLoop
      by_cases hc : changed = true ∧ k < 40
      · rw [if_pos hc]
        have hp := passGates_isSome gates hsafe state false
        cases hpg : passGates gates state false with
        | none => rw [hpg] at hp; simp at hp
        | some q =>
            obtain ⟨state', changed'⟩ := q
            dsimp only
            have hs := ih state' changed' (k + 1)
            cases hsl : simLoop gates fuel state' changed' (k + 1) with
            | none => rw [hsl] at hs; simp at hs
            | some r =>
                obtain ⟨rest, final, ch⟩ := r
                rfl
      · rw [if_neg hc]; rfl

/-- Timeline-length bound of the loop: however much fuel remains, at
most `40 - k` further snapshots are recorded, because of the guard. -/
theorem simLoop_length_le (gates : List (String × Gate)) :
    ∀ fuel state changed k tl st ch,
      simLoop gates fuel state changed k = some (tl, st, ch) → tl.length ≤ 40 - k := by
  intro fuel
  induction fuel with
  | zero =>
      intro state changed k tl st ch h
      unfold simLoop at h
      simp only [Option.some.injEq, Prod.mk.injEq] at h
      obtain ⟨h1, _, _⟩ := h
      simp [← h1]
  | succ fuel ih =>
      intro state changed k tl st ch h
      unfold simLoop at h
      by_cases hc : changed = true ∧ k < 40
      · rw [if_pos hc] at h
        cases hpg : passGates gates state false with
        | none => rw [hpg] at h; simp at h
        | some q =>
            obtain ⟨state', changed'⟩ := q
            rw [hpg] at h
            dsimp only at h
            cases hsl : simLoop gates fuel state' changed' (k + 1) with
            | none => rw [hsl] at h; simp at h
            | some r =>
                obtain ⟨rest, final, ch'⟩ := r
                rw [hsl] at h
                dsimp only at h
                simp only [Option.some.injEq, Prod.mk.injEq] at h
                obtain ⟨h1, _, _⟩ := h
                have hrest := ih state' changed' (k + 1) rest final ch' hsl
                have hk : k < 40 := hc.2
                rw [← h1]
                simp only [List.length_cons]
                omega
      · rw [if_neg hc] at h
        simp only [Option.some.injEq, Prod.mk.injEq] at h
        obtain ⟨h1, _, _⟩ := h
        simp [← h1]

/-- When the loop is entered with exactly the fuel the guard allows
(`fuel + k = 40`, as in `runSim`), exiting with `changed` still true
means every one of the `40 - k` allowed passes was executed: the run
stopped at the time bound, not by convergence. -/
theorem simLoop_changed_bound (gates : List (String × Gate)) :
    ∀ fuel state changed k tl st ch, fuel + k = 40 →
      simLoop gates fuel state changed k = some (tl, st, ch) →
      ch = true → tl.length = 40 - k := by
  intro fuel
  induction fuel with
  | zero =>
      intro state changed k tl st ch hfk h hch
      unfold simLoop at h
      simp only [Option.some.injEq, Prod.mk.injEq] at h
      obtain ⟨h1, _, _⟩ := h
      rw [← h1]
      simp only [List.length_nil]
      omega
  | succ fuel ih =>
      intro state changed k tl st ch hfk h hch
      unfold simLoop at h
      by_cases hc : changed = true ∧ k < 40
      · rw [if_pos hc] at h
        cases hpg : passGates gates state false with
        | none => rw [hpg] at h; simp at h
        | some q =>
            obtain ⟨state', changed'⟩ := q
            rw [hpg] at h
            dsimp only at h
            cases hsl : simLoop gates fuel state' changed' (k + 1) with
            | none => rw [hsl] at h; simp at h
            | some r =>
                obtain ⟨rest, final, ch'⟩ := r
                rw [hsl] at h
                dsimp only at h
                simp only [Option.some.injEq, Prod.mk.injEq] at h
                obtain ⟨h1, _, hc'⟩ := h
                have hrest := ih state' changed' (k + 1) rest final ch' (by omega) hsl
                rw [← h1]
                simp only [List.length_cons]
                rw [hrest (by rw [hc']; exact hch)]
                omega
      · rw [if_neg hc] at h
        simp only [Option.some.injEq, Prod.mk.injEq] at h
        obtain ⟨h1, _, hc'⟩ := h
        rw [← hc'] at hch
        have hnk : ¬ k < 40 := fun hk => hc ⟨hch, hk⟩
        rw [← h1]
        simp only [List.length_nil]
        omega

/-- The one-gate unfolding of a pass. -/
theorem passGates_cons (gid : String) (gate : Gate) (rest : List (String × Gate))
    (s : List (String × Signal)) (c : Bool) :
    passGates ((gid, gate) :: rest) s c
      = match evaluate_gate gate s with
        | none => none
        | some out_sig =>
            if differs s gid out_sig then passGates rest (dictSet s gid out_sig) true
            else passGates rest s c := rfl

/-- Decomposing a pass over a split gate list: the tail of the pass
starts from the state and flag the head of the pass produced. -/
theorem passGates_append (l1 l2 : List (String × Gate)) (s : List (String × Signal)) (c : Bool) :
    passGates (l1 ++ l2) s c = (passGates l1 s c).bind (fun p => passGates l2 p.1 p.2) := by
  induction l1 generalizing s c with
  | nil => rfl
  | cons p rest ih =>
      obtain ⟨gid, gate⟩ := p
      show passGates ((gid, gate) :: (rest ++ l2)) s c = _
      rw [passGates_cons, passGates_cons]
      cases evaluate_gate gate s with
      | none => rfl
      | some out =>
          dsimp only
          by_cases hd : differs s gid out = true
          · rw [if_pos hd, if_pos hd]
            exact ih (dictSet s gid out) true
          · rw [if_neg hd, if_neg hd]
            exact ih s c

/-! Claim theorems. -/

/-- Claim C1, amended.  The claim asserts totality of the simulation for
every circuit; in fact `evaluate_gate` raises a `TypeError` (modelled by
`none`) for a fixed-kind gate with fewer input references than the fixed
arity, as `C1_counterexample_th22_arity` shows.  Amended statement: for
every circuit whose gates are all arity-safe (every `TH22`/`TH12` gate
has at least 2 input references and every `TH23` gate at least 3), the
wavefront simulation raises no error and returns a timeline and a final
output mapping. -/
theorem C1_simulation_total_when_arity_safe (circ : Circuit)
    (h : ∀ p ∈ circ.gates, aritySafe p.2 = true) :
    ∃ r, runSimulation circ = some r := by
  have hs := simLoop_isSome circ.gates h 40 circ.inputs true 0
  unfold runSimulation runSim
  cases hrun : simLoop circ.gates 40 circ.inputs true 0 with
  | none => rw [hrun] at hs; simp at hs
  | some r =>
      obtain ⟨history, state, ch⟩ := r
      exact ⟨(history, final_outputs circ.outputs state), rfl⟩

/-- Witness for C1: the example circuit is arity-safe and its run
returns a result. -/
theorem C1_simulation_total_witness : ∃ r, runSimulation exampleCircuit = some r :=
  C1_simulation_total_when_arity_safe exampleCircuit (by decide)

/-- Counterexample for C1 as stated: on the circuit with the single
gate `G1 = TH22` with an empty input-reference list, the simulation
raises (`th22(*sigs[:2])` is a `TypeError` with zero arguments), so it
does not return a timeline and output mapping. -/
theorem C1_counterexample_th22_arity : runSimulation badCircuit = none := rfl

/-- Claim C2: `thmn(inputs, m)` returns `(1,0)` exactly when at least
`m` of the inputs satisfy `is_data`, and `(0,0)` otherwise; in
particular `thmn([], m) = (0,0)` for every `m ≥ 1`. -/
theorem C2_thmn_characterization (inputs : List Signal) (m : Int) :
    thmn inputs m
      = (if m ≤ ((inputs.countP (fun s => is_data s) : Nat) : Int) then ((1, 0) : Signal)
         else (0, 0))
    ∧ (1 ≤ m → thmn [] m = (0, 0)) := by
  refine ⟨thmn_eq_countP inputs m, ?_⟩
  intro hm
  rw [thmn_eq_countP]
  simp only [List.countP_nil, Nat.cast_zero]
  rw [if_neg (by omega)]

/-- Witness for C2, discharging the `1 ≤ m` hypothesis at `m = 5`. -/
theorem C2_thmn_witness : thmn [] 5 = ((0, 0) : Signal) :=
  (C2_thmn_characterization [] 5).2 (by norm_num)

/-- Claim C3: every run of the loop terminates with at most 40 passes
recorded (the guard `t < 20` with `t` advancing by `0.5`, cf.
`tOfPass_lt_twenty_iff`), so the timeline holds at most 40 snapshots;
and if the run exits with the `changed` flag still true (non-converged,
not an error), it recorded exactly 40 snapshots, i.e. it stopped only
because the time bound was reached. -/
theorem C3_bounded_termination (circ : Circuit) (tl : List Snapshot)
    (st : List (String × Signal)) (ch : Bool)
    (h : runSim circ = some (tl, st, ch)) :
    tl.length ≤ 40 ∧ (ch = true → tl.length = 40) := by
  unfold runSim at h
  constructor
  · have := simLoop_length_le circ.gates 40 circ.inputs true 0 tl st ch h
    simpa using this
  · intro hch
    have := simLoop_changed_bound circ.gates 40 circ.inputs true 0 tl st ch (by omega) h hch
    simpa using this

/-- Witness for C3 at the example circuit. -/
theorem C3_bounded_termination_witness :
    ∃ tl st ch, runSim exampleCircuit = some (tl, st, ch)
      ∧ tl.length ≤ 40 ∧ (ch = true → tl.length = 40) :=
  ⟨exTimeline, exFinalState, false, rfl,
    C3_bounded_termination exampleCircuit exTimeline exFinalState false rfl⟩

/-- Claim C4: an input reference that is not a key of the current state
contributes NULL `(0,0)` at its position of the gathered input list
(and gathering is a total function, so it never raises), and the final
output extraction for a source reference absent from the final state
yields `(0,0)`. -/
theorem C4_unresolved_refs_null (state : List (String × Signal)) (src : String)
    (refs1 refs2 : List String) (h : dictLookup state src = none) :
    gather (refs1 ++ src :: refs2) state
      = gather refs1 state ++ ((0, 0) : Signal) :: gather refs2 state
    ∧ finalValue state src = (0, 0) := by
  refine ⟨gather_append_unresolved state src refs1 refs2 h, ?_⟩
  unfold finalValue
  rw [dictGet_eq_of_lookup_none h, dictGet_eq_of_lookup_none h]

/-- Witness for C4: `Z` is not bound in the state `{A: (1,0)}`. -/
theorem C4_unresolved_refs_null_witness :
    gather (["A"] ++ "Z" :: []) [("A", ((1, 0) : Signal))]
      = gather ["A"] [("A", ((1, 0) : Signal))]
          ++ ((0, 0) : Signal) :: gather [] [("A", ((1, 0) : Signal))]
    ∧ finalValue [("A", ((1, 0) : Signal))] "Z" = (0, 0) :=
  C4_unresolved_refs_null [("A", ((1, 0) : Signal))] "Z" ["A"] [] rfl

/-- Claim C5: the simulation is deterministic — two runs on equal
circuits (same gates in the same insertion order, same initial input
values) produce equal timelines, final states and final output
mappings.  In this embedding the engine is a pure function of the
circuit (the insertion-ordered association lists fix the iteration
order exactly as Python's insertion-ordered dicts do, and no other
state is read), so determinism is the congruence recorded here. -/
theorem C5_determinism (c1 c2 : Circuit) (h : c1 = c2) :
    runSim c1 = runSim c2 ∧ runSimulation c1 = runSimulation c2 := by
  subst h
  exact ⟨rfl, rfl⟩

/-- Witness for C5 at the example circuit. -/
theorem C5_determinism_witness :
    runSimulation exampleCircuit = runSimulation exampleCircuit :=
  (C5_determinism exampleCircuit exampleCircuit rfl).2

/-- Claim C6, amended.  The claim asserts that `add_gate` validates the
kind string and the input-reference arity and fails with a
`ValidationError` instead of storing a malformed gate; in fact the
"Add Gate" handler stores the gate unconditionally — no validation code
and no `ValidationError` exist in the source, and
`C6_counterexample_no_validation` stores a `TH22` gate with three input
references.  Amended statement: `addGate` always stores the gate record
under its id (overwriting any same-named gate in place) and leaves
inputs and outputs untouched; kind well-formedness is ensured only by
the UI's fixed kind choices, not checked by the handler. -/
theorem C6_addGate_stores_unconditionally (circ : Circuit) (gid kindname : String)
    (input_list : List String) (gdelay : ℚ) :
    dictLookup (addGate circ gid kindname input_list gdelay).gates gid
      = some ⟨gid, kindname, input_list, gdelay⟩
    ∧ (addGate circ gid kindname input_list gdelay).inputs = circ.inputs
    ∧ (addGate circ gid kindname input_list gdelay).outputs = circ.outputs :=
  ⟨dictLookup_dictSet_self circ.gates gid _, rfl, rfl⟩

/-- Counterexample for C6 as stated: a `TH22` gate with three input
references (an arity mismatch for the fixed kind) is stored anyway —
no failure occurs and the gate ends up in the circuit. -/
theorem C6_counterexample_no_validation :
    (addGate ⟨[], [], []⟩ "G1" "TH22" ["A", "B", "C"] 1).gates
      = [("G1", ⟨"G1", "TH22", ["A", "B", "C"], 1⟩)] := rfl

/-- Claim C7: within one pass, gates are evaluated in insertion order
against the state updated in place (Gauss–Seidel).  First conjunct: for
a gate list split as `l1 ++ (gid2, g2) :: l2`, the gate `g2` is
evaluated against the state `p.1` produced by passing over all of `l1`
in the same pass — not against the state the pass started from.  Second
conjunct: a concrete observable consequence — with insertion order
`G1 = THm1[A]`, `G2 = THm1[G1]` and `G1` absent from the initial state,
a single pass already yields `G2 = (1,0)`, which under a synchronized
(Jacobi) update would still be NULL. -/
theorem C7_gauss_seidel_in_place (l1 : List (String × Gate)) (gid2 : String) (g2 : Gate)
    (l2 : List (String × Gate)) (s : List (String × Signal)) (c : Bool) :
    (passGates (l1 ++ (gid2, g2) :: l2) s c
      = (passGates l1 s c).bind (fun p =>
          match evaluate_gate g2 p.1 with
          | none => none
          | some out =>
              if differs p.1 gid2 out then passGates l2 (dictSet p.1 gid2 out) true
              else passGates l2 p.1 p.2))
    ∧ passGates [("G1", ⟨"G1", "THm1", ["A"], 1⟩), ("G2", ⟨"G2", "THm1", ["G1"], 1⟩)]
        [("A", ((1, 0) : Signal))] false
      = some ([("A", (1, 0)), ("G1", (1, 0)), ("G2", (1, 0))], true) := by
  constructor
  · rw [passGates_append]
    cases passGates l1 s c with
    | none => rfl
    | some p =>
        obtain ⟨s1, c1⟩ := p
        show passGates ((gid2, g2) :: l2) s1 c1 = _
        rw [passGates_cons]
        rfl
  · rfl

/-- Claim C8: the example circuit (inputs `A=(1,0)`, `B=(0,1)`, gates
`G1=TH12[A,B]`, `G2=TH22[A,B]`, output `OUT=G2`) converges: the run
returns the two-snapshot timeline whose second snapshot (the first
evaluated pass) already has `G1=(1,0)` and `G2=(1,0)`, exits with
`changed = false` (stable thereafter), and yields final output
`OUT=(1,0)`. -/
theorem C8_example_scenario :
    runSimulation exampleCircuit = some (exTimeline, [("OUT", ((1, 0) : Signal))])
    ∧ runSim exampleCircuit = some (exTimeline, exFinalState, false)
    ∧ 2 ≤ exTimeline.length
    ∧ dictLookup (exTimeline.getD 1 ⟨0, []⟩).signals "G1" = some ((1, 0) : Signal)
    ∧ dictLookup (exTimeline.getD 1 ⟨0, []⟩).signals "G2" = some ((1, 0) : Signal)
    ∧ dictLookup exFinalState "G1" = some ((1, 0) : Signal)
    ∧ dictLookup exFinalState "G2" = some ((1, 0) : Signal) :=
  ⟨rfl, rfl, by norm_num [exTimeline], rfl, rfl, rfl, rfl⟩

/-- Claim C9, amended.  The claim asserts that for a kind starting with
`THm` whose remainder fails to parse as an integer, the gate evaluates
with threshold `max(1, number of inputs)`.  In fact the code computes
`int(kind.replace("THm", ""))`, which removes *every* occurrence of the
substring `THm`, not just the prefix, so a kind such as `THmTHm2`
(whose remainder `THm2` does not parse) evaluates with threshold 2 —
see `C9_counterexample_replace_all`.  Amended statement: for every gate
whose kind starts with `THm`, `evaluate_gate` never raises; it deletes
every occurrence of `THm` from the kind, uses the parsed integer as the
threshold if the remaining string parses, and otherwise uses
`max(1, number of gathered inputs)`. -/
theorem C9_generic_kind_fallback (g : Gate) (state : List (String × Signal))
    (h : startsWithTHm g.kind.toList = true) :
    evaluate_gate g state
      = some (thmn (gather g.inputs state)
          (match pyInt (String.mk (replaceTHm g.kind.toList)) with
           | some v => v
           | none => max 1 ((gather g.inputs state).length : Int)))
    ∧ (evaluate_gate g state).isSome = true := by
  have h' : startsWithTHm g.kind.data = true := h
  have hmain : evaluate_gate g state
      = some (thmn (gather g.inputs state)
          (match pyInt (String.mk (replaceTHm g.kind.toList)) with
           | some v => v
           | none => max 1 ((gather g.inputs state).length : Int))) := by
    unfold evaluate_gate
    simp [h']
  exact ⟨hmain, by rw [hmain]; rfl⟩

/-- Witness for C9: a gate of kind `THmX` (unparseable remainder) over
two unresolved references evaluates without raising. -/
theorem C9_generic_kind_fallback_witness :
    (evaluate_gate ⟨"G", "THmX", ["A", "B"], 1⟩ []).isSome = true :=
  (C9_generic_kind_fallback ⟨"G", "THmX", ["A", "B"], 1⟩ [] rfl).2

/-- Counterexample for C9 as stated: the gate kind `THmTHm2` starts
with `THm` and its remainder `THm2` does not parse as an integer, yet
with one DATA input the code returns `(0,0)` (replace-all yields
threshold 2) while the claim's prescription `thmn` at threshold
`max(1, 1) = 1` returns `(1,0)`. -/
theorem C9_counterexample_replace_all :
    evaluate_gate ⟨"G", "THmTHm2", ["A"], 1⟩ [("A", ((1, 0) : Signal))]
      = some ((0, 0) : Signal)
    ∧ thmn (gather ["A"] [("A", ((1, 0) : Signal))])
        (max 1 ((gather ["A"] [("A", ((1, 0) : Signal))]).length : Int))
      = ((1, 0) : Signal) :=
  ⟨rfl, rfl⟩

/-- Claim C10: a fixed-kind gate with more input references than its
arity evaluates using only the first 2 (for `TH22`/`TH12`) or first 3
(for `TH23`) gathered signals — evaluation equals evaluation of the
gate with its reference list truncated, so the remaining references
are silently ignored. -/
theorem C10_fixed_kind_truncation (g : Gate) (state : List (String × Signal)) :
    ((g.kind = "TH22" ∨ g.kind = "TH12") → 2 < g.inputs.length →
      evaluate_gate g state = evaluate_gate ⟨g.id, g.kind, g.inputs.take 2, g.delay⟩ state)
    ∧ (g.kind = "TH23" → 3 < g.inputs.length →
      evaluate_gate g state = evaluate_gate ⟨g.id, g.kind, g.inputs.take 3, g.delay⟩ state) := by
  obtain ⟨gi, gk, gin, gd⟩ := g
  constructor
  · rintro (hk | hk) _ <;>
      (subst hk
       unfold evaluate_gate
       simp only [gather_take, List.take_take]
       norm_num [startsWithTHm_TH22, startsWithTHm_TH12])
  · rintro hk _
    subst hk
    unfold evaluate_gate
    simp only [gather_take, List.take_take]
    norm_num [startsWithTHm_TH23]

/-- Witness for C10: a `TH22` gate with three references evaluates as
its truncation to the first two. -/
theorem C10_fixed_kind_truncation_witness :
    evaluate_gate ⟨"G", "TH22", ["A", "B", "C"], 1⟩ [("C", ((0, 1) : Signal))]
      = evaluate_gate ⟨"G", "TH22", (["A", "B", "C"].take 2), 1⟩ [("C", ((0, 1) : Signal))] :=
  (C10_fixed_kind_truncation ⟨"G", "TH22", ["A", "B", "C"], 1⟩
    [("C", ((0, 1) : Signal))]).1 (Or.inl rfl) (by norm_num)

end NCL
